import Mathlib

/-!
Verification of the Redshift SQL-lineage v2 extractor
(`metadata-ingestion/src/datahub/ingestion/source/redshift/lineage_v2.py`).

The Python class `RedshiftSqlLineageV2` is embedded shallowly: its immutable
per-run state (platform, config, database, known_urns) becomes the structure
`LineageV2`; each `_process_*` classifier becomes a pure function from an
evidence row to `Except String (List LineageFact)`, where `Except.error`
models a raised Python exception (the `assert` in `_process_stl_scan_lineage`,
a `KeyError` from dictionary indexing) and the returned list holds the facts
the classifier forwards to the `SqlParsingAggregator` collaborator.
Collaborator calls that are not part of this file of the repository
(`_get_sources`, `_get_target_lineage`) are passed in as function parameters,
and evidence-row streams are passed in as `Except String (List LineageRow)`,
the error case modelling a query-execution fault.
-/

/-- Python f-string rendering of an optional string: `None` renders as the
four-letter string "None", exactly as in CPython string interpolation. -/
def pystr : Option String → String
  | none => "None"
  | some s => s

/-- Python truthiness test (negated) for an optional string: `None` and the
empty string are falsy, every other string is truthy. -/
def pyfalsy : Option String → Bool
  | none => true
  | some s => s == ""

/-- Python `str.lower`, modelled as lowercasing each character of the
string (for the ASCII storage-type names involved this agrees with
CPython). -/
def py_lower (s : String) : String :=
  ⟨s.data.map Char.toLower⟩

/-- Modelled from the spec: the Dataset Identifier, "a canonical string key
composed of platform, database, schema, table, optional platform-instance,
and environment tag" (`datahub.metadata.urns.DatasetUrn`, a collaborator
whose code is not among this repository's staged files). Two identifiers are
equal iff all components match. -/
structure DatasetUrn where
  platform : String
  name : String
  platform_instance : Option String
  env : String
  deriving DecidableEq, Repr

/-- Modelled from the spec: the canonical string rendering of a Dataset
Identifier; the optional platform instance is folded into the dataset name,
and all components appear verbatim, so the rendering is injective on each
component given the others. -/
def DatasetUrn.urn (u : DatasetUrn) : String :=
  match u.platform_instance with
  | some inst =>
    "urn:li:dataset:(urn:li:dataPlatform:" ++ u.platform ++ "," ++ inst ++ "."
      ++ u.name ++ "," ++ u.env ++ ")"
  | none =>
    "urn:li:dataset:(urn:li:dataPlatform:" ++ u.platform ++ "," ++ u.name
      ++ "," ++ u.env ++ ")"

/-- Modelled from the spec: `DatasetUrn.create_from_ids`, the identifier
constructor used by the registry builder and the row-streamed classifiers;
the spec requires that the registry is "built using the same
identifier-construction rules used everywhere else". -/
def DatasetUrn.create_from_ids (platform_id table_name : String) (env : String)
    (platform_instance : Option String) : DatasetUrn :=
  ⟨platform_id, table_name, platform_instance, env⟩

/-- Modelled from the spec: `mce_builder.make_dataset_urn_with_platform_instance`,
the string-level identifier constructor used by `_process_external_tables`;
by the spec's identifier-construction rule it renders the same canonical
string as `DatasetUrn.create_from_ids` followed by `.urn`. -/
def make_dataset_urn_with_platform_instance (platform name : String)
    (platform_instance : Option String) (env : String) : String :=
  (DatasetUrn.create_from_ids platform name env platform_instance).urn

/-- Embedding of `LineageMode` (`datahub.ingestion.source.redshift.config`):
the three table-lineage modes consulted by `build`. -/
inductive LineageMode where
  | sql_based
  | stl_scan_based
  | mixed
  deriving DecidableEq, Repr

/-- Embedding of the `RedshiftConfig` fields read by `lineage_v2.py`. -/
structure RedshiftConfig where
  env : String
  platform_instance : Option String
  platform_instance_map : Option (List (String × String))
  default_schema : String
  resolve_temp_table_in_lineage : Bool
  include_table_rename_lineage : Bool
  table_lineage_mode : LineageMode
  include_views : Bool
  include_view_lineage : Bool
  include_copy_lineage : Bool
  include_unload_lineage : Bool
  deriving DecidableEq, Repr

/-- Embedding of a catalog table or view entry (`RedshiftTable`/`RedshiftView`):
only `name` and `type` are read by `lineage_v2.py`. -/
structure RedshiftTable where
  name : String
  type : String
  deriving DecidableEq, Repr

/-- Embedding of a catalog schema entry (`RedshiftSchema`): only `type` (the
external-storage type) and `external_database` are read by
`_process_external_tables`. -/
structure RedshiftSchema where
  type : String
  external_database : Option String
  deriving DecidableEq, Repr

/-- Embedding of `LineageRow` (`redshift_schema.py`, the Evidence Row): the
optional fields read by the classifiers. Timestamps are modelled as `Nat`. -/
structure LineageRow where
  ddl : Option String
  session_id : Option String
  timestamp : Option Nat
  source_schema : Option String
  source_table : Option String
  target_schema : Option String
  target_table : Option String
  filename : Option String
  deriving DecidableEq, Repr

/-- Embedding of a temp-table row returned by the legacy extractor's
`get_temp_tables` collaborator. -/
structure TempRow where
  query_text : String
  session_id : Option String
  start_time : Option Nat
  deriving DecidableEq, Repr

/-- The normalized Lineage Facts forwarded to the `SqlParsingAggregator`
collaborator; one constructor per aggregator method called in
`lineage_v2.py`, with exactly the arguments the source passes. -/
inductive LineageFact where
  | observedQuery (query : String) (default_db : String) (default_schema : String)
      (session_id : Option String) (query_timestamp : Option Nat)
      (is_known_temp_table : Bool)
  | knownQueryLineage (query_text : String) (downstream : String)
      (upstreams : List String) (timestamp : Option Nat) (merge_lineage : Bool)
  | viewDefinition (view_urn : DatasetUrn) (view_definition : String)
      (default_db : String) (default_schema : String)
  | knownLineageMapping (upstream_urn : String) (downstream_urn : String)
  | tableRename (original_urn : String) (new_urn : String)
  deriving DecidableEq, Repr

/-- A warning recorded on the report by `_populate_lineage_agg`: the key
`"extract-" ++ kind name` and the diagnostic message. -/
abbrev Warning := String × String

/-- The nested catalog snapshot `all_tables`: database → schema → tables.
Python dictionaries are modelled as association lists. -/
abbrev AllTables := List (String × List (String × List RedshiftTable))

/-- The nested catalog snapshot `db_schemas`: database → schema name → schema. -/
abbrev DbSchemas := List (String × List (String × RedshiftSchema))

/-- Python dictionary `.get` / `in`, modelled on an association list: the
value at the first matching key, if any. -/
def pylookup {α : Type} (d : List (String × α)) (k : String) : Option α :=
  (d.find? fun p => p.1 == k).map fun p => p.2

/-- Two-level dictionary lookup `d[k1][k2]`, `none` when either key misses. -/
def pylookup2 {α : Type} (d : List (String × List (String × α)))
    (k1 k2 : String) : Option α :=
  match pylookup d k1 with
  | none => none
  | some inner => pylookup inner k2

/-- The immutable per-run state of `RedshiftSqlLineageV2` read by the
classifiers: `self.platform`, `self.config`, `self.database`,
`self.known_urns`. -/
structure LineageV2 where
  platform : String
  config : RedshiftConfig
  database : String
  known_urns : List String
  deriving Repr

/-- Embedding of the registry construction at the top of `build`: one URN per
`(db, schema, table)` triple of `all_tables`, built with
`DatasetUrn.create_from_ids` under platform "redshift". -/
def build_known_urns (cfg : RedshiftConfig) (all_tables : AllTables) :
    List String :=
  all_tables.flatMap fun p =>
    p.2.flatMap fun q =>
      q.2.map fun table =>
        (DatasetUrn.create_from_ids "redshift"
          (p.1 ++ "." ++ q.1 ++ "." ++ table.name)
          cfg.env cfg.platform_instance).urn

/-- The state of `RedshiftSqlLineageV2` as `build` establishes it before any
classifier runs: platform "redshift" (set in `__init__`) and the
Known-Entity Registry built from the catalog snapshot. -/
def init_state (cfg : RedshiftConfig) (database : String)
    (all_tables : AllTables) : LineageV2 :=
  ⟨"redshift", cfg, database, build_known_urns cfg all_tables⟩

/-- Embedding of `_make_filtered_target`: build the target identifier from
the run database and the row's (optional) target schema/table, return it
only when its URN is in `known_urns`. Note the source has no separate
empty/null check on the fields: a missing field is interpolated into the
name by the f-string. -/
def make_filtered_target (st : LineageV2) (row : LineageRow) :
    Option DatasetUrn :=
  let target := DatasetUrn.create_from_ids st.platform
    (st.database ++ "." ++ pystr row.target_schema ++ "." ++ pystr row.target_table)
    st.config.env st.config.platform_instance
  if target.urn ∈ st.known_urns then some target else none

/-- Embedding of `_process_sql_parser_lineage`: skip when `ddl is None`,
otherwise forward one observed query (with the aggregator's default
`is_known_temp_table=False`). -/
def process_sql_parser_lineage (st : LineageV2) (row : LineageRow) :
    Except String (List LineageFact) :=
  match row.ddl with
  | none => .ok []
  | some ddl =>
    .ok [LineageFact.observedQuery ddl st.database st.config.default_schema
      row.session_id row.timestamp false]

/-- The source identifier `_process_stl_scan_lineage` builds directly from
the row's source schema/table (no registry check). -/
def scan_source_urn (st : LineageV2) (row : LineageRow) : DatasetUrn :=
  DatasetUrn.create_from_ids st.platform
    (st.database ++ "." ++ pystr row.source_schema ++ "." ++ pystr row.source_table)
    st.config.env st.config.platform_instance

/-- Embedding of `_process_stl_scan_lineage`: drop when the filtered target
is absent; `assert lineage_row.ddl` raises (models `AssertionError`) when
the DDL is `None` or empty; otherwise emit one known-query-lineage edge
with `merge_lineage=True`. -/
def process_stl_scan_lineage (st : LineageV2) (row : LineageRow) :
    Except String (List LineageFact) :=
  match make_filtered_target st row with
  | none => .ok []
  | some target =>
    match row.ddl with
    | none => .error "stl scan entry is missing query text"
    | some ddl =>
      if ddl == "" then .error "stl scan entry is missing query text"
      else
        .ok [LineageFact.knownQueryLineage ddl target.urn
          [(scan_source_urn st row).urn] row.timestamp true]

/-- Embedding of `_process_view_lineage`: skip when `ddl is None`, drop when
the filtered target is absent, otherwise emit one view definition. -/
def process_view_lineage (st : LineageV2) (row : LineageRow) :
    Except String (List LineageFact) :=
  match row.ddl with
  | none => .ok []
  | some ddl =>
    match make_filtered_target st row with
    | none => .ok []
    | some target =>
      .ok [LineageFact.viewDefinition target ddl st.database
        st.config.default_schema]

/-- Embedding of `_process_copy_command`. The legacy extractor's
`_get_sources` collaborator (code not in this file of the repository) is the
parameter `get_sources`, mapping the row's optional filename to the optional
S3 source URN. Drop when no source resolves, when the target schema/table is
falsy, or when the filtered target is absent; otherwise emit one
known-lineage mapping. -/
def process_copy_command (get_sources : Option String → Option String)
    (st : LineageV2) (row : LineageRow) : Except String (List LineageFact) :=
  match get_sources row.filename with
  | none => .ok []
  | some s3_urn =>
    if pyfalsy row.target_schema || pyfalsy row.target_table then .ok []
    else
      match make_filtered_target st row with
      | none => .ok []
      | some target =>
        .ok [LineageFact.knownLineageMapping s3_urn target.urn]

/-- The source identifier `_process_unload_command` builds directly from the
row's source schema/table. -/
def unload_source_urn (st : LineageV2) (row : LineageRow) : String :=
  (DatasetUrn.create_from_ids st.platform
    (st.database ++ "." ++ pystr row.source_schema ++ "." ++ pystr row.source_table)
    st.config.env st.config.platform_instance).urn

/-- Embedding of `_process_unload_command`. The legacy extractor's
`_get_target_lineage` collaborator is the parameter `get_target_lineage`,
mapping the row to the optional unloaded-to output URN. Drop when no output
resolves, when the source schema/table is falsy, or when the source URN is
not in `known_urns` (a direct membership test, not `_make_filtered_target`);
otherwise emit one known-lineage mapping with no merge semantics and no
query text. -/
def process_unload_command (get_target_lineage : LineageRow → Option String)
    (st : LineageV2) (row : LineageRow) : Except String (List LineageFact) :=
  match get_target_lineage row with
  | none => .ok []
  | some output_urn =>
    if pyfalsy row.source_schema || pyfalsy row.source_table then .ok []
    else if unload_source_urn st row ∈ st.known_urns then
      .ok [LineageFact.knownLineageMapping (unload_source_urn st row) output_urn]
    else .ok []

/-- The edge `_process_external_tables` emits for one external table: the
upstream is synthesized from the schema's storage type (lowercased, as the
foreign platform, with the platform-instance map consulted) and its external
database; the downstream is the table's own identifier in the run
database. -/
def ext_table_edge (st : LineageV2) (schema : RedshiftSchema)
    (schema_name : String) (table : RedshiftTable) : LineageFact :=
  LineageFact.knownLineageMapping
    (make_dataset_urn_with_platform_instance (py_lower schema.type)
      (pystr schema.external_database ++ "." ++ table.name)
      (match st.config.platform_instance_map with
       | some m => pylookup m (py_lower schema.type)
       | none => none)
      st.config.env)
    (make_dataset_urn_with_platform_instance st.platform
      (st.database ++ "." ++ schema_name ++ "." ++ table.name)
      st.config.platform_instance st.config.env)

/-- The inner loop of `_process_external_tables` over one schema's tables:
for each table of type EXTERNAL_TABLE, index `db_schemas` by the run
database and the schema name (a missing key raises `KeyError`) and emit the
edge unconditionally. -/
def process_ext_schema_tables (st : LineageV2) (db_schemas : DbSchemas)
    (schema_name : String) : List RedshiftTable → Except String (List LineageFact)
  | [] => .ok []
  | table :: rest =>
    if table.type == "EXTERNAL_TABLE" then
      match pylookup2 db_schemas st.database schema_name with
      | none => .error "KeyError"
      | some schema =>
        match process_ext_schema_tables st db_schemas schema_name rest with
        | .error e => .error e
        | .ok fs => .ok (ext_table_edge st schema schema_name table :: fs)
    else process_ext_schema_tables st db_schemas schema_name rest

/-- The outer loop of `_process_external_tables` over the run database's
schemas. -/
def process_ext_schemas (st : LineageV2) (db_schemas : DbSchemas) :
    List (String × List RedshiftTable) → Except String (List LineageFact)
  | [] => .ok []
  | p :: rest =>
    match process_ext_schema_tables st db_schemas p.1 p.2 with
    | .error e => .error e
    | .ok fs =>
      match process_ext_schemas st db_schemas rest with
      | .error e => .error e
      | .ok fs2 => .ok (fs ++ fs2)

/-- Embedding of `_process_external_tables`: index `all_tables` by the run
database (`all_tables[self.database]` raises `KeyError` when absent) and
walk its schemas. -/
def process_external_tables (st : LineageV2) (all_tables : AllTables)
    (db_schemas : DbSchemas) : Except String (List LineageFact) :=
  match pylookup all_tables st.database with
  | none => .error ("KeyError: " ++ st.database)
  | some schemas => process_ext_schemas st db_schemas schemas

/-- The result of executing one evidence kind's query
(`RedshiftDataDictionary.get_lineage_rows`): the streamed rows, or a raised
exception. -/
abbrev RowsResult := Except String (List LineageRow)

/-- A classifier as `_populate_lineage_agg` consumes it: one evidence row in,
zero or more facts out, or a raised exception. -/
abbrev Processor := LineageRow → Except String (List LineageFact)

/-- One entry of `populate_calls` in `build`: the collector-type name, the
query's row stream, and the processor. -/
abbrev PopulateCall := String × RowsResult × Processor

/-- The row loop inside `_populate_lineage_agg`'s `try`: classify rows one at
a time; a raised exception stops the loop, keeping the facts already
forwarded. Returns the facts and the exception, if one was raised. -/
def process_rows (p : Processor) :
    List LineageRow → List LineageFact × Option String
  | [] => ([], none)
  | row :: rest =>
    match p row with
    | .error e => ([], some e)
    | .ok fs =>
      match process_rows p rest with
      | (more, w) => (fs ++ more, w)

/-- Embedding of `_populate_lineage_agg`: any exception from query execution
or row classification is caught and recorded as a report warning keyed
`"extract-" ++ kind name`; the method never raises. -/
def populate_lineage_agg (kind_name : String) (rows : RowsResult)
    (p : Processor) : List LineageFact × List Warning :=
  match rows with
  | .error e => ([], [("extract-" ++ kind_name, e)])
  | .ok rs =>
    match process_rows p rs with
    | (fs, none) => (fs, [])
    | (fs, some e) => (fs, [("extract-" ++ kind_name, e)])

/-- The dispatch loop at the end of `build`: run `_populate_lineage_agg` for
each entry of `populate_calls`, in order, accumulating facts and warnings. -/
def run_calls : List PopulateCall → List LineageFact × List Warning
  | [] => ([], [])
  | c :: rest =>
    match populate_lineage_agg c.1 c.2.1 c.2.2 with
    | (fs, ws) =>
      match run_calls rest with
      | (fs2, ws2) => (fs ++ fs2, ws ++ ws2)

/-- The inputs `build` consumes: the catalog snapshots, the collaborator
row streams (one `RowsResult` per evidence kind's query), and the legacy
extractor's collaborators. `get_temp_tables` (line 103) and
`_process_table_renames` (line 117) execute queries outside any
`try`/`except`, so their outcomes are fallible (`Except.error` models the
collaborator raising, which escapes `build`). -/
structure BuildInput where
  all_tables : AllTables
  db_schemas : DbSchemas
  temp_rows : Except String (List TempRow)
  table_renames : Except String (List (String × String))
  sql_rows : RowsResult
  scan_rows : RowsResult
  view_rows : RowsResult
  late_view_rows : RowsResult
  copy_rows : RowsResult
  unload_rows : RowsResult
  get_sources : Option String → Option String
  get_target_lineage : LineageRow → Option String

/-- The `populate_calls` list `build` assembles, gated by the configuration
exactly as in the source: SQL-parser lineage for modes sql_based/mixed,
STL-scan lineage for modes stl_scan_based/mixed, view and late-binding-view
lineage when views and view lineage are both enabled, copy and unload
lineage when enabled. -/
def populate_calls (st : LineageV2) (inp : BuildInput) : List PopulateCall :=
  (if st.config.table_lineage_mode = LineageMode.sql_based
      ∨ st.config.table_lineage_mode = LineageMode.mixed then
    [("QUERY_SQL_PARSER", inp.sql_rows, process_sql_parser_lineage st)]
  else []) ++
  (if st.config.table_lineage_mode = LineageMode.stl_scan_based
      ∨ st.config.table_lineage_mode = LineageMode.mixed then
    [("QUERY_SCAN", inp.scan_rows, process_stl_scan_lineage st)]
  else []) ++
  (if st.config.include_views && st.config.include_view_lineage then
    [("VIEW", inp.view_rows, process_view_lineage st),
     ("VIEW_DDL_SQL_PARSING", inp.late_view_rows, process_view_lineage st)]
  else []) ++
  (if st.config.include_copy_lineage then
    [("COPY", inp.copy_rows, process_copy_command inp.get_sources st)]
  else []) ++
  (if st.config.include_unload_lineage then
    [("UNLOAD", inp.unload_rows, process_unload_command inp.get_target_lineage st)]
  else [])

/-- The temp-table pre-pass at the top of `build` (lines 102-111): when
`resolve_temp_table_in_lineage` is set, stream `get_temp_tables` — a raise
there is uncaught — and forward each row as an observed query flagged as a
known temp table; when the flag is off the query never runs. -/
def temp_facts_result (cfg : RedshiftConfig) (database : String)
    (temp_rows : Except String (List TempRow)) :
    Except String (List LineageFact) :=
  if cfg.resolve_temp_table_in_lineage then
    match temp_rows with
    | .error e => .error e
    | .ok rs =>
      .ok (rs.map fun tr =>
        LineageFact.observedQuery tr.query_text database cfg.default_schema
          tr.session_id tr.start_time true)
  else .ok []

/-- The rename pre-pass of `build` (lines 115-127): when
`include_table_rename_lineage` is set, run `_process_table_renames` — a
raise there is uncaught — and forward each (new, original) pair as a rename
fact; when the flag is off the collaborator never runs. -/
def rename_facts_result (cfg : RedshiftConfig)
    (table_renames : Except String (List (String × String))) :
    Except String (List LineageFact) :=
  if cfg.include_table_rename_lineage then
    match table_renames with
    | .error e => .error e
    | .ok rs => .ok (rs.map fun p => LineageFact.tableRename p.2 p.1)
  else .ok []

/-- Embedding of `build`: build the registry, run the temp-table and rename
pre-passes (both outside any `try`/`except`, so their exceptions propagate),
run the dispatch loop (which never raises), then run
`_process_external_tables` — also outside any `try`/`except`. The returned
pair is (facts forwarded to the aggregator, warnings recorded). -/
def build (cfg : RedshiftConfig) (database : String) (inp : BuildInput) :
    Except String (List LineageFact × List Warning) :=
  let st := init_state cfg database inp.all_tables
  match temp_facts_result cfg database inp.temp_rows with
  | .error e => .error e
  | .ok temp_facts =>
    match rename_facts_result cfg inp.table_renames with
    | .error e => .error e
    | .ok rename_facts =>
      match run_calls (populate_calls st inp) with
      | (loop_facts, warnings) =>
        match process_external_tables st inp.all_tables inp.db_schemas with
        | .error e => .error e
        | .ok ext_facts =>
          .ok (temp_facts ++ rename_facts ++ loop_facts ++ ext_facts, warnings)

/-- A concrete run configuration used by the concrete-instance theorems:
environment PROD, no platform instance, every evidence kind enabled. -/
def cfg0 : RedshiftConfig :=
  { env := "PROD"
    platform_instance := none
    platform_instance_map := none
    default_schema := "public"
    resolve_temp_table_in_lineage := false
    include_table_rename_lineage := false
    table_lineage_mode := LineageMode.mixed
    include_views := true
    include_view_lineage := true
    include_copy_lineage := true
    include_unload_lineage := true }

/-- A concrete catalog snapshot: database `db`, schema `public`, tables
`orders` and `customers` (the spec's scan scenario registry). -/
def at0 : AllTables :=
  [("db", [("public", [⟨"orders", "BASE TABLE"⟩, ⟨"customers", "BASE TABLE"⟩])])]

/-- The run state for the concrete snapshot `at0`. -/
def st0 : LineageV2 := init_state cfg0 "db" at0

/-- The spec's concrete scan row: `public.customers` → `public.orders` with
an INSERT query. -/
def row0 : LineageRow :=
  { ddl := some "INSERT INTO orders SELECT * FROM customers"
    session_id := some "s1"
    timestamp := some 5
    source_schema := some "public"
    source_table := some "customers"
    target_schema := some "public"
    target_table := some "orders"
    filename := none }

/-- A concrete unload row: source `public.orders`, no target fields. -/
def rowU : LineageRow :=
  { ddl := none
    session_id := none
    timestamp := none
    source_schema := some "public"
    source_table := some "orders"
    target_schema := none
    target_table := none
    filename := none }

/-- A catalog snapshot whose schema is literally named "None": the name a
Python f-string gives a missing field. -/
def atNone : AllTables := [("db", [("None", [⟨"t", "BASE TABLE"⟩])])]

/-- A concrete catalog snapshot holding one external table, the spec's
external-table scenario: `db.ext_schema.ext_tbl` of type EXTERNAL_TABLE. -/
def atExt : AllTables := [("db", [("ext_schema", [⟨"ext_tbl", "EXTERNAL_TABLE"⟩])])]

/-- The schema catalog for `atExt`: storage type "glue", external database
"raw". -/
def dsExt : DbSchemas := [("db", [("ext_schema", ⟨"glue", some "raw"⟩)])]

/-- A build input whose catalog snapshot is empty (the run database is not a
key of `all_tables`) and whose row streams are all empty. -/
def inp0 : BuildInput :=
  { all_tables := []
    db_schemas := []
    temp_rows := .ok []
    table_renames := .ok []
    sql_rows := .ok []
    scan_rows := .ok []
    view_rows := .ok []
    late_view_rows := .ok []
    copy_rows := .ok []
    unload_rows := .ok []
    get_sources := fun _ => none
    get_target_lineage := fun _ => none }
/-- The downstream URN of a Known Edge fact (one forwarded through
`add_known_query_lineage` or `add_known_lineage_mapping`); `none` for the
other fact shapes. -/
def edge_downstream : LineageFact → Option String
  | LineageFact.knownQueryLineage _ d _ _ _ => some d
  | LineageFact.knownLineageMapping _ d => some d
  | _ => none

/-- An identifier URN qualified with the run's configured database: the URN
of the identifier whose name is `self.database ++ "." ++ rest`, under the
run's platform, environment and platform instance. -/
def db_qualified_urn (st : LineageV2) (rest : String) : String :=
  (DatasetUrn.create_from_ids st.platform (st.database ++ "." ++ rest)
    st.config.env st.config.platform_instance).urn

/-- The facts contributed by the evidence kind at position `j` of the
dispatch loop's call list (`none` past the end of the list): the first
component of that call's `_populate_lineage_agg` outcome. -/
def kind_facts (calls : List PopulateCall) (j : Nat) : Option (List LineageFact) :=
  (calls[j]?).map fun c => (populate_lineage_agg c.1 c.2.1 c.2.2).1

/-- A concrete fault-free dispatch list: the SQL-parser kind and the scan
kind, each streaming the scan row `row0`. -/
def callsA : List PopulateCall :=
  [("QUERY_SQL_PARSER", Except.ok [row0], process_sql_parser_lineage st0),
   ("QUERY_SCAN", Except.ok [row0], process_stl_scan_lineage st0)]

/-- The same dispatch list with a fault injected into the scan kind's query
execution. -/
def callsB : List PopulateCall :=
  [("QUERY_SQL_PARSER", Except.ok [row0], process_sql_parser_lineage st0),
   ("QUERY_SCAN", Except.error "relation stl_scan does not exist", process_stl_scan_lineage st0)]

/-- The scan row with its DDL removed: its target still resolves, so the
scan classifier's `assert` raises on it. -/
def rowNoDdl : LineageRow := { row0 with ddl := none }

/-- The same dispatch list with a fault in the scan kind's row
classification instead: the query succeeds, but the streamed row makes
`_process_stl_scan_lineage` raise. -/
def callsC : List PopulateCall :=
  [("QUERY_SQL_PARSER", Except.ok [row0], process_sql_parser_lineage st0),
   ("QUERY_SCAN", Except.ok [rowNoDdl], process_stl_scan_lineage st0)]

/-- Shape of a successful target resolution: the returned identifier is the
one built from the run database and the row's target fields, and its URN is
registered. -/
theorem make_filtered_target_some (st : LineageV2) (row : LineageRow)
    (t : DatasetUrn) (h : make_filtered_target st row = some t) :
    t = DatasetUrn.create_from_ids st.platform
        (st.database ++ "." ++ pystr row.target_schema ++ "." ++ pystr row.target_table)
        st.config.env st.config.platform_instance
      ∧ t.urn ∈ st.known_urns := by
  unfold make_filtered_target at h
  by_cases hmem : (DatasetUrn.create_from_ids st.platform
      (st.database ++ "." ++ pystr row.target_schema ++ "." ++ pystr row.target_table)
      st.config.env st.config.platform_instance).urn ∈ st.known_urns
  · simp only [hmem, if_pos] at h
    cases h
    exact ⟨rfl, hmem⟩
  · rw [if_neg hmem] at h
    exact absurd h (by simp)

/-- Membership in the Known-Entity Registry of the URN of any table of the
catalog snapshot, under the first-match semantics of dictionary lookup. -/
theorem mem_build_known_urns (cfg : RedshiftConfig) (all_tables : AllTables)
    (db : String) (schemas : List (String × List RedshiftTable))
    (schema_name : String) (tables : List RedshiftTable) (t : RedshiftTable)
    (h1 : pylookup all_tables db = some schemas)
    (h2 : (schema_name, tables) ∈ schemas) (h3 : t ∈ tables) :
    (DatasetUrn.create_from_ids "redshift"
      (db ++ "." ++ schema_name ++ "." ++ t.name)
      cfg.env cfg.platform_instance).urn ∈ build_known_urns cfg all_tables := by
  unfold pylookup at h1
  rcases Option.map_eq_some'.mp h1 with ⟨p, hfind, hp2⟩
  have hpmem : p ∈ all_tables := List.mem_of_find?_eq_some hfind
  have hpdb : p.1 = db := by
    have := List.find?_some hfind
    exact eq_of_beq this
  unfold build_known_urns
  refine List.mem_flatMap.mpr ⟨p, hpmem, ?_⟩
  refine List.mem_flatMap.mpr ⟨(schema_name, tables), ?_, ?_⟩
  · rw [hp2]; exact h2
  · refine List.mem_map.mpr ⟨t, h3, ?_⟩
    rw [hpdb]
/-- Shape of every fact emitted by the inner external-table loop: one edge
per EXTERNAL_TABLE entry, built from the successfully looked-up schema. -/
theorem process_ext_schema_tables_fact (st : LineageV2) (db_schemas : DbSchemas)
    (schema_name : String) (ts : List RedshiftTable) (fs : List LineageFact)
    (f : LineageFact)
    (h : process_ext_schema_tables st db_schemas schema_name ts = .ok fs)
    (hf : f ∈ fs) :
    ∃ t, t ∈ ts ∧ t.type = "EXTERNAL_TABLE" ∧
      ∃ schema, pylookup2 db_schemas st.database schema_name = some schema ∧
        f = ext_table_edge st schema schema_name t := by
  induction ts generalizing fs with
  | nil =>
    unfold process_ext_schema_tables at h
    cases h
    exact absurd hf (by simp)
  | cons t rest ih =>
    unfold process_ext_schema_tables at h
    by_cases htype : (t.type == "EXTERNAL_TABLE") = true
    · rw [if_pos htype] at h
      cases hlk : pylookup2 db_schemas st.database schema_name with
      | none => rw [hlk] at h; cases h
      | some schema =>
        rw [hlk] at h
        cases hrec : process_ext_schema_tables st db_schemas schema_name rest with
        | error e => rw [hrec] at h; cases h
        | ok fs2 =>
          rw [hrec] at h
          cases h
          rcases List.mem_cons.mp hf with hft | hfr
          · exact ⟨t, List.mem_cons_self t rest, eq_of_beq htype, schema, rfl, hft⟩
          · rcases ih fs2 hrec hfr with ⟨t2, ht2, hty2, s2, hlk2, hf2⟩
            exact ⟨t2, List.mem_cons_of_mem t ht2, hty2, s2, by rw [← hlk]; exact hlk2, hf2⟩
    · rw [if_neg htype] at h
      rcases ih fs h hf with ⟨t2, ht2, hty2, s2, hlk2, hf2⟩
      exact ⟨t2, List.mem_cons_of_mem t ht2, hty2, s2, hlk2, hf2⟩

/-- Shape of every fact emitted by the outer external-table loop. -/
theorem process_ext_schemas_fact (st : LineageV2) (db_schemas : DbSchemas)
    (schemas : List (String × List RedshiftTable)) (fs : List LineageFact)
    (f : LineageFact)
    (h : process_ext_schemas st db_schemas schemas = .ok fs) (hf : f ∈ fs) :
    ∃ schema_name ts, (schema_name, ts) ∈ schemas ∧
      ∃ t, t ∈ ts ∧ t.type = "EXTERNAL_TABLE" ∧
        ∃ schema, pylookup2 db_schemas st.database schema_name = some schema ∧
          f = ext_table_edge st schema schema_name t := by
  induction schemas generalizing fs with
  | nil =>
    unfold process_ext_schemas at h
    cases h
    exact absurd hf (by simp)
  | cons p rest ih =>
    unfold process_ext_schemas at h
    cases h1 : process_ext_schema_tables st db_schemas p.1 p.2 with
    | error e => rw [h1] at h; cases h
    | ok fs1 =>
      rw [h1] at h
      cases h2 : process_ext_schemas st db_schemas rest with
      | error e => rw [h2] at h; cases h
      | ok fs2 =>
        rw [h2] at h
        cases h
        rcases List.mem_append.mp hf with hm | hm
        · rcases process_ext_schema_tables_fact st db_schemas p.1 p.2 fs1 f h1 hm with
            ⟨t, ht, hty, schema, hlk, hfe⟩
          exact ⟨p.1, p.2, by simp, t, ht, hty, schema, hlk, hfe⟩
        · rcases ih fs2 h2 hm with ⟨sn, ts, hmem, rest2⟩
          exact ⟨sn, ts, List.mem_cons_of_mem p hmem, rest2⟩
/-- C1. Every Known Edge fact emitted by the Scan-Based classifier
(`_process_stl_scan_lineage`), the Copy-Command classifier
(`_process_copy_command`) or the External-Table classifier
(`_process_external_tables`), when run in the state `build` establishes from
the catalog snapshot, has a downstream URN that is a member of the
Known-Entity Registry `known_urns` built from that snapshot. -/
theorem known_edge_downstream_in_registry (cfg : RedshiftConfig) (db : String)
    (all_tables : AllTables) (db_schemas : DbSchemas)
    (get_sources : Option String → Option String) (row : LineageRow)
    (fs : List LineageFact) (f : LineageFact) (d : String)
    (hrun : process_stl_scan_lineage (init_state cfg db all_tables) row = .ok fs
      ∨ process_copy_command get_sources (init_state cfg db all_tables) row = .ok fs
      ∨ process_external_tables (init_state cfg db all_tables) all_tables db_schemas = .ok fs)
    (hf : f ∈ fs) (hd : edge_downstream f = some d) :
    d ∈ (init_state cfg db all_tables).known_urns := by
  rcases hrun with hscan | hcopy | hext
  · unfold process_stl_scan_lineage at hscan
    cases htgt : make_filtered_target (init_state cfg db all_tables) row with
    | none =>
      rw [htgt] at hscan
      cases hscan
      exact absurd hf (by simp)
    | some target =>
      rw [htgt] at hscan
      dsimp only at hscan
      cases hddl : row.ddl with
      | none => rw [hddl] at hscan; cases hscan
      | some ddl =>
        rw [hddl] at hscan
        dsimp only at hscan
        by_cases hne : (ddl == "") = true
        · rw [if_pos hne] at hscan; cases hscan
        · rw [if_neg hne] at hscan
          cases hscan
          rcases List.mem_singleton.mp hf with rfl
          cases hd
          exact (make_filtered_target_some _ _ _ htgt).2
  · unfold process_copy_command at hcopy
    cases hsrc : get_sources row.filename with
    | none =>
      rw [hsrc] at hcopy
      cases hcopy
      exact absurd hf (by simp)
    | some s3_urn =>
      rw [hsrc] at hcopy
      dsimp only at hcopy
      by_cases hfals : (pyfalsy row.target_schema || pyfalsy row.target_table) = true
      · rw [if_pos hfals] at hcopy
        cases hcopy
        exact absurd hf (by simp)
      · rw [if_neg hfals] at hcopy
        cases htgt : make_filtered_target (init_state cfg db all_tables) row with
        | none =>
          rw [htgt] at hcopy
          cases hcopy
          exact absurd hf (by simp)
        | some target =>
          rw [htgt] at hcopy
          cases hcopy
          rcases List.mem_singleton.mp hf with rfl
          cases hd
          exact (make_filtered_target_some _ _ _ htgt).2
  · unfold process_external_tables at hext
    cases hlk : pylookup all_tables (init_state cfg db all_tables).database with
    | none => rw [hlk] at hext; cases hext
    | some schemas =>
      rw [hlk] at hext
      rcases process_ext_schemas_fact _ _ _ _ _ hext hf with
        ⟨schema_name, ts, hmem, t, ht, htype, schema, hlk2, hfe⟩
      subst hfe
      unfold ext_table_edge at hd
      unfold edge_downstream at hd
      cases hd
      have hdb : (init_state cfg db all_tables).database = db := rfl
      rw [hdb] at hlk
      exact mem_build_known_urns cfg all_tables db schemas schema_name ts t hlk hmem ht
/-- Witness for C1 at the spec's scan scenario: the edge emitted for
`public.customers` → `public.orders` has the orders URN downstream, and that
URN is in the registry built from the snapshot. -/
theorem known_edge_downstream_in_registry_witness :
    "urn:li:dataset:(urn:li:dataPlatform:redshift,db.public.orders,PROD)"
      ∈ (init_state cfg0 "db" at0).known_urns :=
  known_edge_downstream_in_registry cfg0 "db" at0 [] (fun _ => none) row0
    [LineageFact.knownQueryLineage "INSERT INTO orders SELECT * FROM customers"
      "urn:li:dataset:(urn:li:dataPlatform:redshift,db.public.orders,PROD)"
      ["urn:li:dataset:(urn:li:dataPlatform:redshift,db.public.customers,PROD)"]
      (some 5) true]
    (LineageFact.knownQueryLineage "INSERT INTO orders SELECT * FROM customers"
      "urn:li:dataset:(urn:li:dataPlatform:redshift,db.public.orders,PROD)"
      ["urn:li:dataset:(urn:li:dataPlatform:redshift,db.public.customers,PROD)"]
      (some 5) true)
    "urn:li:dataset:(urn:li:dataPlatform:redshift,db.public.orders,PROD)"
    (Or.inl rfl) (by decide) (by decide)
/-- Decomposition of the dispatch loop: its facts and warnings are the
per-kind facts and warnings, concatenated in call order. -/
theorem run_calls_eq (calls : List PopulateCall) :
    run_calls calls =
      (calls.flatMap fun c => (populate_lineage_agg c.1 c.2.1 c.2.2).1,
       calls.flatMap fun c => (populate_lineage_agg c.1 c.2.1 c.2.2).2) := by
  induction calls with
  | nil => rfl
  | cons c rest ih =>
    unfold run_calls
    rw [ih]
    simp [List.flatMap_cons]

/-- C2. Failure isolation: when the evidence kind at position `k` of the
dispatch list raises — either its query execution fails (its row stream is
an error) or the classification of one of its streamed rows raises —
`_populate_lineage_agg` catches the exception and records exactly one
warning keyed with the kind's name and carrying the diagnostic message (and
that warning reaches the loop's output), while every other position of the
call list contributes exactly the facts it contributes in the fault-free
run. -/
theorem fault_isolation (calls calls2 : List PopulateCall) (k : Nat)
    (n e : String) (rows : RowsResult) (p : Processor)
    (hother : ∀ j, j ≠ k → calls[j]? = calls2[j]?)
    (hcall : calls2[k]? = some (n, rows, p))
    (hfault : rows = Except.error e
      ∨ ∃ rs fs, rows = Except.ok rs ∧ process_rows p rs = (fs, some e)) :
    (populate_lineage_agg n rows p).2 = [("extract-" ++ n, e)]
      ∧ ("extract-" ++ n, e) ∈ (run_calls calls2).2
      ∧ ∀ j, j ≠ k → kind_facts calls2 j = kind_facts calls j := by
  have hwarn : (populate_lineage_agg n rows p).2 = [("extract-" ++ n, e)] := by
    rcases hfault with rfl | ⟨rs, fs, rfl, hproc⟩
    · rfl
    · unfold populate_lineage_agg
      dsimp only
      rw [hproc]
  refine ⟨hwarn, ?_, ?_⟩
  · rw [run_calls_eq]
    refine List.mem_flatMap.mpr ⟨(n, rows, p), List.getElem?_mem hcall, ?_⟩
    simp [hwarn]
  · intro j hj
    unfold kind_facts
    rw [hother j hj]

/-- Witness for C2 at two concrete faulted dispatch lists: a
query-execution fault (the scan kind's row stream errors) and a
row-classification fault (the scan classifier's assert raises on a streamed
row); in both, the warning carries the scan kind's name and message and the
SQL-parser kind contributes the same facts as in the fault-free list. -/
theorem fault_isolation_witness :
    (("extract-" ++ "QUERY_SCAN", "relation stl_scan does not exist")
        ∈ (run_calls callsB).2
      ∧ kind_facts callsB 0 = kind_facts callsA 0)
    ∧ (("extract-" ++ "QUERY_SCAN", "stl scan entry is missing query text")
        ∈ (run_calls callsC).2
      ∧ kind_facts callsC 0 = kind_facts callsA 0) := by
  have h1 := fault_isolation callsA callsB 1 "QUERY_SCAN"
    "relation stl_scan does not exist"
    (Except.error "relation stl_scan does not exist")
    (process_stl_scan_lineage st0)
    (by
      intro j hj
      match j with
      | 0 => rfl
      | 1 => exact absurd rfl hj
      | Nat.succ (Nat.succ m) => rfl)
    rfl (Or.inl rfl)
  have h2 := fault_isolation callsA callsC 1 "QUERY_SCAN"
    "stl scan entry is missing query text"
    (Except.ok [rowNoDdl])
    (process_stl_scan_lineage st0)
    (by
      intro j hj
      match j with
      | 0 => rfl
      | 1 => exact absurd rfl hj
      | Nat.succ (Nat.succ m) => rfl)
    rfl (Or.inr ⟨[rowNoDdl], [], rfl, rfl⟩)
  exact ⟨⟨h1.2.1, h1.2.2 0 (by decide)⟩, ⟨h2.2.1, h2.2.2 0 (by decide)⟩⟩

/-- C3 counterexample. The claim "build always returns normally, including
when `_process_external_tables` itself raises" is false at a concrete
input: with an empty catalog snapshot, `all_tables[self.database]` raises
`KeyError` inside `_process_external_tables`, which runs outside the
per-kind `try`/`except`, and the exception escapes `build`. -/
theorem build_raises_on_missing_database :
    build cfg0 "db" inp0 = Except.error ("KeyError: " ++ "db") := rfl

/-- C3 amended. No exception escapes the per-evidence-kind dispatch loop
itself (each `_populate_lineage_agg` call catches every exception), but
three calls of `build` sit outside any `try`/`except`: the temp-table
pre-pass (`get_temp_tables`, when `resolve_temp_table_in_lineage` is set),
the rename pre-pass (`_process_table_renames`, when
`include_table_rename_lineage` is set), and `_process_external_tables`
after the loop. `build` raises exactly when the first of those three (in
program order) raises. -/
theorem build_error_iff_unguarded_raises (cfg : RedshiftConfig)
    (db : String) (inp : BuildInput) (e : String) :
    build cfg db inp = Except.error e ↔
      (temp_facts_result cfg db inp.temp_rows = Except.error e
        ∨ (∃ tf, temp_facts_result cfg db inp.temp_rows = Except.ok tf
            ∧ rename_facts_result cfg inp.table_renames = Except.error e)
        ∨ (∃ tf rf, temp_facts_result cfg db inp.temp_rows = Except.ok tf
            ∧ rename_facts_result cfg inp.table_renames = Except.ok rf
            ∧ process_external_tables (init_state cfg db inp.all_tables)
                inp.all_tables inp.db_schemas = Except.error e)) := by
  unfold build
  cases htf : temp_facts_result cfg db inp.temp_rows with
  | error e1 => simp
  | ok tf =>
    cases hrf : rename_facts_result cfg inp.table_renames with
    | error e1 => simp
    | ok rf =>
      cases hrun : run_calls (populate_calls (init_state cfg db inp.all_tables) inp) with
      | mk fs ws =>
        cases hext : process_external_tables (init_state cfg db inp.all_tables)
            inp.all_tables inp.db_schemas with
        | error e1 => simp [hext]
        | ok ext_facts => simp [hext]

/-- Witness for C3's amended theorem at a concrete input: with both
pre-passes succeeding (and disabled), the `KeyError` raised by
`_process_external_tables` when the run database is missing from the
snapshot is exactly the exception `build` propagates. -/
theorem build_error_iff_unguarded_raises_witness :
    build cfg0 "db" inp0 = Except.error ("KeyError: " ++ "db") :=
  (build_error_iff_unguarded_raises cfg0 "db" inp0 ("KeyError: " ++ "db")).mpr
    (Or.inr (Or.inr ⟨[], [], rfl, rfl, rfl⟩))

/-- C4 counterexample. The claim "a row lacking a required field for its
classifier emits no fact and raises no exception" is false at a concrete
input: a scan row whose target resolves against the registry but whose DDL
is missing makes `_process_stl_scan_lineage` raise
(`assert lineage_row.ddl`) rather than skip. -/
theorem scan_missing_ddl_raises :
    process_stl_scan_lineage st0
      { ddl := none
        session_id := some "s1"
        timestamp := some 5
        source_schema := some "public"
        source_table := some "customers"
        target_schema := some "public"
        target_table := some "orders"
        filename := none }
      = Except.error "stl scan entry is missing query text" := rfl

/-- C4 amended. A row lacking a required field makes its classifier emit no
fact and raise no exception — except the Scan-Based classifier when the
target resolves and the DDL is missing or empty, where the source's
`assert` raises (the exception is then caught by the dispatch loop):
the Observed-Query and View classifiers skip on missing DDL, the
Copy-Command classifier skips when no source resolves from the filename or
when the target schema/table is missing or empty, the Unload classifier
skips when no output resolves or the source schema/table is missing or
empty, and the Scan-Based classifier with missing DDL skips only when the
target does not resolve. -/
theorem missing_field_behavior (st : LineageV2) (row : LineageRow)
    (get_sources : Option String → Option String)
    (get_target_lineage : LineageRow → Option String) :
    (row.ddl = none → process_sql_parser_lineage st row = .ok [])
      ∧ (row.ddl = none → process_view_lineage st row = .ok [])
      ∧ (get_sources row.filename = none →
          process_copy_command get_sources st row = .ok [])
      ∧ ((pyfalsy row.target_schema || pyfalsy row.target_table) = true →
          process_copy_command get_sources st row = .ok [])
      ∧ (get_target_lineage row = none →
          process_unload_command get_target_lineage st row = .ok [])
      ∧ ((pyfalsy row.source_schema || pyfalsy row.source_table) = true →
          process_unload_command get_target_lineage st row = .ok [])
      ∧ (row.ddl = none → make_filtered_target st row = none →
          process_stl_scan_lineage st row = .ok [])
      ∧ (row.ddl = none → make_filtered_target st row ≠ none →
          process_stl_scan_lineage st row
            = .error "stl scan entry is missing query text") := by
  refine ⟨?_, ?_, ?_, ?_, ?_, ?_, ?_, ?_⟩
  · intro h
    unfold process_sql_parser_lineage
    rw [h]
  · intro h
    unfold process_view_lineage
    rw [h]
  · intro h
    unfold process_copy_command
    rw [h]
  · intro h
    unfold process_copy_command
    cases hsrc : get_sources row.filename with
    | none => rfl
    | some u =>
      dsimp only
      rw [if_pos h]
  · intro h
    unfold process_unload_command
    rw [h]
  · intro h
    unfold process_unload_command
    cases htgt : get_target_lineage row with
    | none => rfl
    | some u =>
      dsimp only
      rw [if_pos h]
  · intro hddl htgt
    unfold process_stl_scan_lineage
    rw [htgt]
  · intro hddl htgt
    unfold process_stl_scan_lineage
    cases ht : make_filtered_target st row with
    | none => exact absurd ht htgt
    | some t =>
      dsimp only
      rw [hddl]

/-- Witness for C4's amended theorem at concrete inputs: the SQL-parser
classifier skips a row with no DDL, and the copy classifier skips a row
whose target table is missing. -/
theorem missing_field_behavior_witness :
    process_sql_parser_lineage st0
      { ddl := none, session_id := none, timestamp := none,
        source_schema := none, source_table := none, target_schema := none,
        target_table := none, filename := none } = .ok []
    ∧ process_copy_command (fun _ => some "urn:li:dataset:(urn:li:dataPlatform:s3,bucket/file.csv,PROD)") st0
      { ddl := none, session_id := none, timestamp := none,
        source_schema := none, source_table := none,
        target_schema := some "public", target_table := none,
        filename := some "s3://bucket/file.csv" } = .ok [] := by
  have h1 := missing_field_behavior st0
    { ddl := none, session_id := none, timestamp := none,
      source_schema := none, source_table := none, target_schema := none,
      target_table := none, filename := none }
    (fun _ => none) (fun _ => none)
  have h2 := missing_field_behavior st0
    { ddl := none, session_id := none, timestamp := none,
      source_schema := none, source_table := none,
      target_schema := some "public", target_table := none,
      filename := some "s3://bucket/file.csv" }
    (fun _ => some "urn:li:dataset:(urn:li:dataPlatform:s3,bucket/file.csv,PROD)")
    (fun _ => none)
  exact ⟨h1.1 rfl, h2.2.2.2.1 (by decide)⟩
/-- C5 counterexample. The claim "the Target Resolver returns absent
whenever the target schema or table field is empty/null" is false at a
concrete input: the source has no such field check — a null schema is
interpolated as the string "None", and when the registry happens to hold a
schema literally named "None" with the row's table, the resolver returns a
target. -/
theorem make_filtered_target_null_schema_resolves :
    make_filtered_target (init_state cfg0 "db" atNone)
      { ddl := none
        session_id := none
        timestamp := none
        source_schema := none
        source_table := none
        target_schema := none
        target_table := some "t"
        filename := none }
      = some ⟨"redshift", "db.None.t", none, "PROD"⟩ := rfl

/-- C5 amended. `_make_filtered_target` returns absent exactly when the
identifier built from the run database and the stringified target fields is
not in the Known-Entity Registry; empty/null fields are not separately
checked (a null field stringifies into the name, so such rows are dropped
only because the resulting name is normally unregistered). In particular,
for every identifier absent from the registry the resolver returns absent,
and it never raises. -/
theorem make_filtered_target_none_iff (st : LineageV2) (row : LineageRow) :
    make_filtered_target st row = none ↔
      (DatasetUrn.create_from_ids st.platform
        (st.database ++ "." ++ pystr row.target_schema ++ "." ++ pystr row.target_table)
        st.config.env st.config.platform_instance).urn ∉ st.known_urns := by
  unfold make_filtered_target
  by_cases hmem : (DatasetUrn.create_from_ids st.platform
      (st.database ++ "." ++ pystr row.target_schema ++ "." ++ pystr row.target_table)
      st.config.env st.config.platform_instance).urn ∈ st.known_urns
  · simp [hmem]
  · simp [hmem]

/-- Witness for C5's amended theorem: at a registry not holding
`db.public.scratch_tmp`, the resolver returns absent for a row targeting
`public.scratch_tmp` (the spec's scenario). -/
theorem make_filtered_target_none_iff_witness :
    make_filtered_target st0
      { ddl := none
        session_id := none
        timestamp := none
        source_schema := none
        source_table := none
        target_schema := some "public"
        target_table := some "scratch_tmp"
        filename := none }
      = none :=
  (make_filtered_target_none_iff st0
    { ddl := none
      session_id := none
      timestamp := none
      source_schema := none
      source_table := none
      target_schema := some "public"
      target_table := some "scratch_tmp"
      filename := none }).mpr (by decide)
/-- C6. For every scan row whose target resolves to a registry member and
whose DDL text is present (non-empty), the Scan-Based classifier emits
exactly one Known Edge from the source identifier — built directly from the
row's source schema/table, with no registry check — to the resolved target,
carrying the row's query text and timestamp, with `merge_lineage=True`. -/
theorem scan_emits_one_merged_edge (st : LineageV2) (row : LineageRow)
    (t : DatasetUrn) (s : String)
    (hddl : row.ddl = some s) (hne : s ≠ "")
    (ht : make_filtered_target st row = some t) :
    process_stl_scan_lineage st row
      = .ok [LineageFact.knownQueryLineage s t.urn
          [(scan_source_urn st row).urn] row.timestamp true] := by
  unfold process_stl_scan_lineage
  rw [ht]
  dsimp only
  rw [hddl]
  dsimp only
  rw [if_neg (by simpa using hne)]

/-- Witness for C6 at the spec's scenario: registry
{db.public.orders, db.public.customers}, scan row `public.customers` →
`public.orders` with an INSERT statement and timestamp 5 yields exactly one
edge customers → orders with merge semantics enabled. -/
theorem scan_emits_one_merged_edge_witness :
    process_stl_scan_lineage st0 row0
      = .ok [LineageFact.knownQueryLineage
          "INSERT INTO orders SELECT * FROM customers"
          "urn:li:dataset:(urn:li:dataPlatform:redshift,db.public.orders,PROD)"
          ["urn:li:dataset:(urn:li:dataPlatform:redshift,db.public.customers,PROD)"]
          (some 5) true] := by
  have h := scan_emits_one_merged_edge st0 row0
    ⟨"redshift", "db.public.orders", none, "PROD"⟩
    "INSERT INTO orders SELECT * FROM customers" rfl (by decide) rfl
  simpa using h
/-- C7. The Unload-Command classifier emits a Known Edge (no merge
semantics, no query text) from the directly-built source identifier to the
collaborator-derived output exactly when the output resolver yields an
output, the row's source schema and table are both non-empty, and the
source URN is a member of the registry (a direct membership test); when any
condition fails, it emits nothing. -/
theorem unload_emits_iff (get_target_lineage : LineageRow → Option String)
    (st : LineageV2) (row : LineageRow) (fs : List LineageFact)
    (h : process_unload_command get_target_lineage st row = .ok fs) :
    (fs ≠ [] ↔ ∃ out, get_target_lineage row = some out
        ∧ pyfalsy row.source_schema = false ∧ pyfalsy row.source_table = false
        ∧ unload_source_urn st row ∈ st.known_urns)
      ∧ (∀ out, get_target_lineage row = some out → fs ≠ [] →
          fs = [LineageFact.knownLineageMapping (unload_source_urn st row) out]) := by
  unfold process_unload_command at h
  cases hout : get_target_lineage row with
  | none =>
    rw [hout] at h
    cases h
    refine ⟨⟨fun hne => absurd rfl hne, ?_⟩, ?_⟩
    · rintro ⟨out, hsome, _⟩
      cases hsome
    · intro out hsome
      cases hsome
  | some out0 =>
    rw [hout] at h
    dsimp only at h
    by_cases hfals : (pyfalsy row.source_schema || pyfalsy row.source_table) = true
    · rw [if_pos hfals] at h
      cases h
      refine ⟨⟨fun hne => absurd rfl hne, ?_⟩, ?_⟩
      · rintro ⟨out, hsome, hs1, hs2, hmem⟩
        rw [hs1, hs2] at hfals
        cases hfals
      · intro out hsome hne
        exact absurd rfl hne
    · rw [if_neg hfals] at h
      by_cases hmem : unload_source_urn st row ∈ st.known_urns
      · rw [if_pos hmem] at h
        cases h
        have hboth : pyfalsy row.source_schema = false ∧ pyfalsy row.source_table = false := by
          constructor <;> [skip; skip] <;>
            · cases h1 : pyfalsy row.source_schema <;> cases h2 : pyfalsy row.source_table <;>
                first | rfl | (rw [h1, h2] at hfals; exact absurd rfl hfals)
        refine ⟨⟨fun hne => ⟨out0, rfl, hboth.1, hboth.2, hmem⟩, fun hex => by simp⟩, ?_⟩
        intro out hsome hne
        cases hsome
        rfl
      · rw [if_neg hmem] at h
        cases h
        refine ⟨⟨fun hne => absurd rfl hne, ?_⟩, fun out hsome hne => absurd rfl hne⟩
        rintro ⟨out, hsome, hs1, hs2, hmem2⟩
        exact absurd hmem2 hmem

/-- Witness for C7 at a concrete input: for the unload row with source
`public.orders` (registered) and an output resolver yielding an S3 URN, the
single emitted mapping's upstream is exactly the directly-built source
URN. -/
theorem unload_emits_iff_witness :
    [LineageFact.knownLineageMapping
       "urn:li:dataset:(urn:li:dataPlatform:redshift,db.public.orders,PROD)"
       "urn:li:dataset:(urn:li:dataPlatform:s3,bucket/out,PROD)"]
    = [LineageFact.knownLineageMapping (unload_source_urn st0 rowU)
       "urn:li:dataset:(urn:li:dataPlatform:s3,bucket/out,PROD)"] := by
  have h := unload_emits_iff
    (fun _ => some "urn:li:dataset:(urn:li:dataPlatform:s3,bucket/out,PROD)")
    st0 rowU
    [LineageFact.knownLineageMapping
       "urn:li:dataset:(urn:li:dataPlatform:redshift,db.public.orders,PROD)"
       "urn:li:dataset:(urn:li:dataPlatform:s3,bucket/out,PROD)"]
    rfl
  exact h.2 "urn:li:dataset:(urn:li:dataPlatform:s3,bucket/out,PROD)" rfl (by decide)
/-- Closed form of the inner external-table loop when the schema entry is
present: one edge per EXTERNAL_TABLE entry, in table order. -/
theorem process_ext_schema_tables_eq (st : LineageV2) (db_schemas : DbSchemas)
    (schema_name : String) (schema : RedshiftSchema) (ts : List RedshiftTable)
    (hs : pylookup2 db_schemas st.database schema_name = some schema) :
    process_ext_schema_tables st db_schemas schema_name ts
      = .ok ((ts.filter fun t => t.type == "EXTERNAL_TABLE").map
          (ext_table_edge st schema schema_name)) := by
  induction ts with
  | nil => rfl
  | cons t rest ih =>
    unfold process_ext_schema_tables
    by_cases htype : (t.type == "EXTERNAL_TABLE") = true
    · rw [if_pos htype, hs, ih]
      simp [List.filter_cons, htype]
    · rw [if_neg htype, ih]
      simp [List.filter_cons, htype]

/-- Closed form of the outer external-table loop when every schema of the
run database's snapshot is found in `db_schemas`: the per-schema edge lists,
concatenated in catalog order. -/
theorem process_ext_schemas_eq (st : LineageV2) (db_schemas : DbSchemas)
    (sch : String → RedshiftSchema) (schemas : List (String × List RedshiftTable))
    (hsch : ∀ p ∈ schemas, pylookup2 db_schemas st.database p.1 = some (sch p.1)) :
    process_ext_schemas st db_schemas schemas
      = .ok (schemas.flatMap fun p =>
          (p.2.filter fun t => t.type == "EXTERNAL_TABLE").map
            (ext_table_edge st (sch p.1) p.1)) := by
  revert hsch
  induction schemas with
  | nil =>
    intro _
    rfl
  | cons p rest ih =>
    intro hsch
    unfold process_ext_schemas
    rw [process_ext_schema_tables_eq st db_schemas p.1 (sch p.1) p.2
      (hsch p (List.mem_cons_self p rest))]
    rw [ih fun q hq => hsch q (List.mem_cons_of_mem p hq)]
    simp [List.flatMap_cons]

/-- C8. For every table of type EXTERNAL_TABLE in the run database's
snapshot, the External-Table classifier emits exactly one Known Edge,
unconditionally and with no registry check: when the database is present in
`all_tables` and each of its schemas is found in `db_schemas`, the output
is exactly one edge per external table, in catalog order, whose downstream
is the table's own identifier in the run database and whose upstream uses
the schema's storage type (lowercased) as the foreign platform and its
external-database name as the foreign database. -/
theorem external_tables_emit_one_edge_each (st : LineageV2)
    (all_tables : AllTables) (db_schemas : DbSchemas)
    (schemas : List (String × List RedshiftTable))
    (sch : String → RedshiftSchema)
    (hlk : pylookup all_tables st.database = some schemas)
    (hsch : ∀ p ∈ schemas, pylookup2 db_schemas st.database p.1 = some (sch p.1)) :
    process_external_tables st all_tables db_schemas
      = .ok (schemas.flatMap fun p =>
          (p.2.filter fun t => t.type == "EXTERNAL_TABLE").map
            (ext_table_edge st (sch p.1) p.1)) := by
  unfold process_external_tables
  rw [hlk]
  exact process_ext_schemas_eq st db_schemas sch schemas hsch

/-- Witness for C8 at the spec's scenario: external table
`db.ext_schema.ext_tbl` with storage type "glue" and external database
"raw" yields exactly the edge glue.raw.ext_tbl → db.ext_schema.ext_tbl. -/
theorem external_tables_emit_one_edge_each_witness :
    process_external_tables (init_state cfg0 "db" atExt) atExt dsExt
      = .ok [LineageFact.knownLineageMapping
          "urn:li:dataset:(urn:li:dataPlatform:glue,raw.ext_tbl,PROD)"
          "urn:li:dataset:(urn:li:dataPlatform:redshift,db.ext_schema.ext_tbl,PROD)"] := by
  have h := external_tables_emit_one_edge_each (init_state cfg0 "db" atExt)
    atExt dsExt [("ext_schema", [⟨"ext_tbl", "EXTERNAL_TABLE"⟩])]
    (fun _ => ⟨"glue", some "raw"⟩) rfl
    (by
      intro p hp
      rcases List.mem_singleton.mp hp with rfl
      rfl)
  rw [h]
  simp only [Except.ok.injEq]
  decide
/-- C9 counterexample. The claim "the Observed-Query classifier emits a fact
if and only if the row has non-empty DDL/SQL text" is false at a concrete
input: the source checks only `ddl is None`, so a row whose DDL is the
empty string (present but empty) still emits an observed query carrying the
empty SQL text. -/
theorem sql_parser_emits_on_empty_ddl :
    process_sql_parser_lineage st0
      { ddl := some ""
        session_id := some "s1"
        timestamp := some 5
        source_schema := none
        source_table := none
        target_schema := none
        target_table := none
        filename := none }
      = .ok [LineageFact.observedQuery "" "db" "public" (some "s1") (some 5) false] := rfl

/-- C9 amended. The Observed-Query classifier emits exactly when the row's
DDL is present (non-null) — an empty string still emits; the fact carries
the raw SQL text, the run database, the configured default schema, the
row's session id and timestamp, with the known-temp flag off; and no target
filtering is applied: the outcome does not depend on the Known-Entity
Registry. -/
theorem sql_parser_emits_iff_ddl_present (st : LineageV2) (row : LineageRow) :
    (row.ddl = none → process_sql_parser_lineage st row = .ok [])
      ∧ (∀ s, row.ddl = some s →
          process_sql_parser_lineage st row
            = .ok [LineageFact.observedQuery s st.database st.config.default_schema
                row.session_id row.timestamp false])
      ∧ (∀ ks, process_sql_parser_lineage
          { platform := st.platform, config := st.config,
            database := st.database, known_urns := ks } row
          = process_sql_parser_lineage st row) := by
  refine ⟨?_, ?_, ?_⟩
  · intro h
    unfold process_sql_parser_lineage
    rw [h]
  · intro s h
    unfold process_sql_parser_lineage
    rw [h]
  · intro ks
    unfold process_sql_parser_lineage
    cases row.ddl <;> rfl

/-- Witness for C9's amended theorem at a concrete input: a row carrying an
INSERT statement yields exactly one observed-query fact with the run's
db/schema, the row's session id and timestamp. -/
theorem sql_parser_emits_iff_ddl_present_witness :
    process_sql_parser_lineage st0 row0
      = .ok [LineageFact.observedQuery "INSERT INTO orders SELECT * FROM customers"
          "db" "public" (some "s1") (some 5) false] :=
  (sql_parser_emits_iff_ddl_present st0 row0).2.1
    "INSERT INTO orders SELECT * FROM customers" rfl
/-- Reassociation of the three-component dataset name: building the URN from
`db ++ "." ++ a ++ "." ++ b` is building it from the db-qualified name with
rest `a ++ "." ++ b`. -/
theorem create_urn_db_qualified (st : LineageV2) (a b : String) :
    (DatasetUrn.create_from_ids st.platform (st.database ++ "." ++ a ++ "." ++ b)
      st.config.env st.config.platform_instance).urn
      = db_qualified_urn st (a ++ "." ++ b) := by
  unfold db_qualified_urn
  simp [String.append_assoc]

/-- C10. Every dataset identifier built by the row-streamed classifiers —
the scan-based source and target, the view target, the copy target and the
unload source — is qualified with the run's configured database: whatever
the evidence row contains, the built URN's name starts with
`self.database ++ "."`. -/
theorem classifier_urns_db_qualified (st : LineageV2) (row : LineageRow)
    (get_sources : Option String → Option String)
    (get_target_lineage : LineageRow → Option String)
    (fs : List LineageFact) (f : LineageFact) :
    (process_stl_scan_lineage st row = .ok fs → f ∈ fs →
      ∀ q d ups ts m, f = LineageFact.knownQueryLineage q d ups ts m →
        (∃ r, d = db_qualified_urn st r) ∧ ∀ u ∈ ups, ∃ r2, u = db_qualified_urn st r2)
      ∧ (process_view_lineage st row = .ok fs → f ∈ fs →
          ∀ v ddl ddb ds, f = LineageFact.viewDefinition v ddl ddb ds →
            ∃ r, v.name = st.database ++ "." ++ r)
      ∧ (process_copy_command get_sources st row = .ok fs → f ∈ fs →
          ∀ up down, f = LineageFact.knownLineageMapping up down →
            ∃ r, down = db_qualified_urn st r)
      ∧ (process_unload_command get_target_lineage st row = .ok fs → f ∈ fs →
          ∀ up down, f = LineageFact.knownLineageMapping up down →
            ∃ r, up = db_qualified_urn st r) := by
  refine ⟨?_, ?_, ?_, ?_⟩
  · intro h hf q d ups ts m hfe
    unfold process_stl_scan_lineage at h
    cases htgt : make_filtered_target st row with
    | none =>
      rw [htgt] at h
      cases h
      exact absurd hf (by simp)
    | some target =>
      rw [htgt] at h
      dsimp only at h
      cases hddl : row.ddl with
      | none => rw [hddl] at h; cases h
      | some ddl =>
        rw [hddl] at h
        dsimp only at h
        by_cases hne : (ddl == "") = true
        · rw [if_pos hne] at h; cases h
        · rw [if_neg hne] at h
          cases h
          rcases List.mem_singleton.mp hf with rfl
          cases hfe
          constructor
          · refine ⟨pystr row.target_schema ++ "." ++ pystr row.target_table, ?_⟩
            rw [(make_filtered_target_some st row target htgt).1]
            exact create_urn_db_qualified st _ _
          · intro u hu
            rcases List.mem_singleton.mp hu with rfl
            refine ⟨pystr row.source_schema ++ "." ++ pystr row.source_table, ?_⟩
            unfold scan_source_urn
            exact create_urn_db_qualified st _ _
  · intro h hf v ddl0 ddb ds hfe
    unfold process_view_lineage at h
    cases hddl : row.ddl with
    | none =>
      rw [hddl] at h
      cases h
      exact absurd hf (by simp)
    | some ddl =>
      rw [hddl] at h
      dsimp only at h
      cases htgt : make_filtered_target st row with
      | none =>
        rw [htgt] at h
        cases h
        exact absurd hf (by simp)
      | some target =>
        rw [htgt] at h
        cases h
        rcases List.mem_singleton.mp hf with rfl
        cases hfe
        refine ⟨pystr row.target_schema ++ "." ++ pystr row.target_table, ?_⟩
        rw [(make_filtered_target_some st row v htgt).1]
        simp [DatasetUrn.create_from_ids, String.append_assoc]
  · intro h hf up down hfe
    unfold process_copy_command at h
    cases hsrc : get_sources row.filename with
    | none =>
      rw [hsrc] at h
      cases h
      exact absurd hf (by simp)
    | some s3_urn =>
      rw [hsrc] at h
      dsimp only at h
      by_cases hfals : (pyfalsy row.target_schema || pyfalsy row.target_table) = true
      · rw [if_pos hfals] at h
        cases h
        exact absurd hf (by simp)
      · rw [if_neg hfals] at h
        cases htgt : make_filtered_target st row with
        | none =>
          rw [htgt] at h
          cases h
          exact absurd hf (by simp)
        | some target =>
          rw [htgt] at h
          cases h
          rcases List.mem_singleton.mp hf with rfl
          cases hfe
          refine ⟨pystr row.target_schema ++ "." ++ pystr row.target_table, ?_⟩
          rw [(make_filtered_target_some st row target htgt).1]
          exact create_urn_db_qualified st _ _
  · intro h hf up down hfe
    unfold process_unload_command at h
    cases hout : get_target_lineage row with
    | none =>
      rw [hout] at h
      cases h
      exact absurd hf (by simp)
    | some out =>
      rw [hout] at h
      dsimp only at h
      by_cases hfals : (pyfalsy row.source_schema || pyfalsy row.source_table) = true
      · rw [if_pos hfals] at h
        cases h
        exact absurd hf (by simp)
      · rw [if_neg hfals] at h
        by_cases hmem : unload_source_urn st row ∈ st.known_urns
        · rw [if_pos hmem] at h
          cases h
          rcases List.mem_singleton.mp hf with rfl
          cases hfe
          refine ⟨pystr row.source_schema ++ "." ++ pystr row.source_table, ?_⟩
          unfold unload_source_urn
          exact create_urn_db_qualified st _ _
        · rw [if_neg hmem] at h
          cases h
          exact absurd hf (by simp)

/-- Witness for C10 at the spec's scan scenario: the downstream URN of the
emitted scan edge is the db-qualified URN of `public.orders`. -/
theorem classifier_urns_db_qualified_witness :
    ∃ r, "urn:li:dataset:(urn:li:dataPlatform:redshift,db.public.orders,PROD)"
      = db_qualified_urn st0 r := by
  have h := (classifier_urns_db_qualified st0 row0 (fun _ => none) (fun _ => none)
    [LineageFact.knownQueryLineage "INSERT INTO orders SELECT * FROM customers"
      "urn:li:dataset:(urn:li:dataPlatform:redshift,db.public.orders,PROD)"
      ["urn:li:dataset:(urn:li:dataPlatform:redshift,db.public.customers,PROD)"]
      (some 5) true]
    (LineageFact.knownQueryLineage "INSERT INTO orders SELECT * FROM customers"
      "urn:li:dataset:(urn:li:dataPlatform:redshift,db.public.orders,PROD)"
      ["urn:li:dataset:(urn:li:dataPlatform:redshift,db.public.customers,PROD)"]
      (some 5) true)).1 rfl (by decide)
    "INSERT INTO orders SELECT * FROM customers"
    "urn:li:dataset:(urn:li:dataPlatform:redshift,db.public.orders,PROD)"
    ["urn:li:dataset:(urn:li:dataPlatform:redshift,db.public.customers,PROD)"]
    (some 5) true rfl
  exact h.1
